import Mathlib

/-!
Shallow embedding of the pointblank MCP server core
(`src/mcp_folder/pointblank_server.py`): the session registries
(loaded dataframes and active validators), the rule-step dispatcher,
the interrogation runner and the result extractor.

The external rule engine (the `pointblank` library) and the file system
are collaborators: they are modelled as oracle functions bundled in an
`Env` record, over which the theorems quantify.  Python exceptions are
modelled with `Except`, and the error branch carries the session state
at the moment of the raise, so "no mutation on failure" is expressible.
Observable side effects (MCP warnings, progress reports, `print` calls,
directory creation, CSV writes, engine invocations) are returned as an
explicit effect trace.
-/

set_option autoImplicit false

namespace PointblankMCP

/-- Python-style association lookup (dict access `d[k]` / `k in d`). -/
def dictGet {κ α : Type} [DecidableEq κ] : List (κ × α) → κ → Option α
  | [], _ => none
  | (k0, v) :: t, k => if k0 = k then some v else dictGet t k

/-- Python-style dict assignment `d[k] = v`: replaces the first binding of
`k` in place, or appends a new binding at the end. -/
def dictSet {κ α : Type} [DecidableEq κ] : List (κ × α) → κ → α → List (κ × α)
  | [], k, v => [(k, v)]
  | (k0, v0) :: t, k, v => if k0 = k then (k, v) :: t else (k0, v0) :: dictSet t k v

/-- Lowercase a string character by character (Python `str.lower()` on the
ASCII identifiers and extensions this server manipulates). -/
def strLower (s : String) : String :=
  String.mk (s.data.map Char.toLower)

/-- Split a character list on a separator character (the semantics of
Python `str.split` with a one-character separator). -/
def splitOnChar (sep : Char) : List Char → List (List Char)
  | [] => [[]]
  | c :: cs =>
    let r := splitOnChar sep cs
    if c = sep then [] :: r
    else
      match r with
      | [] => [[c]]
      | h :: t => (c :: h) :: t

/-- Join character-list path components back with slashes. -/
def joinWithSlash : List (List Char) → List Char
  | [] => []
  | [x] => x
  | x :: xs => x ++ '/' :: joinWithSlash xs

/-- Final path component (`pathlib.PurePath.name` for the simple relative
and absolute paths the server receives). -/
def pathName (p : String) : String :=
  String.mk ((splitOnChar '/' p.data).getLastD p.data)

/-- Index of the last `.` in a character list, if any. -/
def lastDotIdx : List Char → Option Nat
  | [] => none
  | c :: cs =>
    match lastDotIdx cs with
    | some i => some (i + 1)
    | none => if c = '.' then some 0 else none

/-- Python `pathlib.PurePath.suffix`: the extension of the final component, taken
from its last dot, empty when the dot is leading or trailing. -/
def pathSuffix (p : String) : String :=
  let name := pathName p
  match lastDotIdx name.data with
  | none => ""
  | some i => if 0 < i ∧ i < name.data.length - 1 then String.mk (name.data.drop i) else ""

/-- Python `pathlib.PurePath.parent`, used only as the argument of the mkdir
effect. -/
def pathParent (p : String) : String :=
  String.mk (joinWithSlash ((splitOnChar '/' p.data).dropLast))

/-- Python `str.endswith`. -/
def strEndsWith (s pat : String) : Bool :=
  pat.data.isSuffixOf s.data

/-- A tabular dataset (the pandas `DataFrame` collaborator): named columns
and rows of opaque cell values. -/
structure DataFrame where
  columns : List String := []
  rows : List (List String) := []
deriving DecidableEq, Repr

/-- pandas `DataFrame.empty`: true when either axis has length 0. -/
def DataFrame.empty (df : DataFrame) : Bool :=
  df.rows.isEmpty || df.columns.isEmpty

/-- pandas `DataFrame.shape`. -/
def DataFrame.shape (df : DataFrame) : Nat × Nat :=
  (df.rows.length, df.columns.length)

/-- Named parameters of a validation step (values kept opaque). -/
def Params : Type := List (String × String)

instance : DecidableEq Params := by
  unfold Params; infer_instance

/-- Opaque `pb.Thresholds` object, as constructed by the engine. -/
structure ThresholdsObj where
  raw : List (String × String) := []
deriving DecidableEq, Repr

/-- Opaque `pb.Actions` object. -/
structure ActionsObj where
  raw : List (String × String) := []
deriving DecidableEq, Repr

/-- Opaque `pb.FinalActions` object. -/
structure FinalActionsObj where
  raw : List (String × String) := []
deriving DecidableEq, Repr

/-- One accumulated validation step: the engine method it resolved to and
its parameters. -/
structure ValidationStep where
  method : String
  params : List (String × String)
deriving DecidableEq, Repr

/-- The observable state of a `pb.Validate` pipeline object: its bound
data, display metadata, accumulated steps, the `time_processed`
interrogation marker, and the evidence the engine recorded at the last
interrogation (per-step extracts, sundered row sets, JSON report). -/
structure Validate where
  data : DataFrame
  tbl_name : String
  label : String
  thresholds : Option ThresholdsObj := none
  actions : Option ActionsObj := none
  final_actions : Option FinalActionsObj := none
  brief : Option Bool := none
  lang : Option String := none
  locale : Option String := none
  steps : List ValidationStep := []
  time_processed : Bool := false
  data_extracts : List (Int × DataFrame) := []
  sundered : List (String × DataFrame) := []
  json_report : String := ""
deriving DecidableEq, Repr

/-- The session store (`AppContext`): the Table Registry and the Validator
Registry. -/
structure AppContext where
  loaded_dataframes : List (String × DataFrame) := []
  active_validators : List (String × Validate) := []
deriving DecidableEq, Repr

/-- Python exception kinds raised by the server. -/
inductive PyError where
  | valueError (msg : String)
  | typeError (msg : String)
  | runtimeError (msg : String)
  | fileNotFoundError (msg : String)
deriving DecidableEq, Repr

/-- Outcome of one engine validation-method call. -/
inductive StepFail where
  | typeError (msg : String)
  | otherError (msg : String)
deriving DecidableEq, Repr

/-- What a successful engine interrogation produces. -/
structure IResult where
  json_report : String
  extracts : List (Int × DataFrame) := []
  sundered : List (String × DataFrame) := []
deriving DecidableEq, Repr

/-- The external rule engine (`pointblank`) as an oracle. -/
structure Engine where
  runStep : String → List (String × String) → Option StepFail
  interrogate : Validate → Except String IResult
  mkThresholds : List (String × String) → Except String ThresholdsObj
  mkActions : List (String × String) → Except String ActionsObj
  mkFinalActions : List (String × String) → Except String FinalActionsObj
  reportToDf : String → DataFrame

/-- Observable side effects emitted by the tool handlers. -/
inductive Effect where
  | warning (msg : String)
  | interrogateCall
  | engineStepCall (method : String)
  | getDataExtracts (i : Int)
  | getSunderedData (t : String)
  | mkdir (dir : String)
  | writeCsv (path : String)
  | reportProgress (msg : String)
  | printMsg (msg : String)
deriving DecidableEq, Repr

/-- The process environment: the engine oracle, the readable files, the
write outcome per destination path (`none` = success, `some e` = the
exception message the write raises), path resolution and the hex suffix
the next generated identifier would use. -/
structure Env where
  engine : Engine
  files : List (String × DataFrame) := []
  writeOk : String → Option String := fun _ => none
  resolve : String → String := fun p => p
  freshHex : String := "abcd1234"

/-- Python truthiness of an optional string argument: `None` and `""` both
select the default. -/
def orDefault (s : Option String) (d : String) : String :=
  match s with
  | some v => if v = "" then d else v
  | none => d

/-- Embeds `_load_dataframe_from_path`: existence check, then extension dispatch
(the format-specific readers are collaborators; a readable file yields its
stored dataframe). -/
def loadDataFrameFromPath (env : Env) (input_path : String) : Except PyError DataFrame :=
  match dictGet env.files input_path with
  | none => .error (.fileNotFoundError
      ("Input file \x27" ++ input_path ++ "\x27 not found."))
  | some df =>
    let s := strLower (pathSuffix input_path)
    if s = ".csv" then .ok df
    else if s = ".xls" ∨ s = ".xlsx" then .ok df
    else if s = ".parquet" then .ok df
    else .error (.valueError
      ("Unsupported file type: " ++ pathSuffix input_path ++ ". Please use CSV or Excel."))

/-- Return payload of `load_dataframe`. -/
structure DataFrameInfo where
  df_id : String
  shape : Nat × Nat
  columns : List String
deriving DecidableEq, Repr

/-- The `load_dataframe` tool: read the file, settle the effective id
(caller-supplied when truthy, otherwise generated), reject duplicates,
then insert into the Table Registry. -/
def load_dataframe (env : Env) (ctx : AppContext) (input_path : String)
    (df_id : Option String) :
    Except (PyError × AppContext) (DataFrameInfo × AppContext) :=
  match loadDataFrameFromPath env input_path with
  | .error e => .error (e, ctx)
  | .ok df =>
    let effective_df_id := orDefault df_id ("df_" ++ env.freshHex)
    if (dictGet ctx.loaded_dataframes effective_df_id).isSome then
      .error (.valueError
        ("DataFrame ID \x27" ++ effective_df_id ++
          "\x27 already exists. Choose a different ID or omit to generate a new one."), ctx)
    else
      .ok ({ df_id := effective_df_id, shape := df.shape, columns := df.columns },
        { ctx with loaded_dataframes := ctx.loaded_dataframes ++ [(effective_df_id, df)] })

/-- Return payload of `create_validator`. -/
structure ValidatorInfo where
  validator_id : String
deriving DecidableEq, Repr

/-- The `create_validator` tool: lookup of the dataframe, duplicate-id
check, thresholds construction (a constructor failure is re-raised as
`ValueError`), actions/final-actions construction (a constructor failure
is printed and replaced by `None`), then registration of the new
pipeline.  `None` and `\x7b\x7d` dict arguments are both falsy in the source,
so optional dicts are modelled as lists with emptiness as falsiness. -/
def create_validator (env : Env) (ctx : AppContext) (df_id : String)
    (validator_id : Option String) (table_name : Option String)
    (validator_label : Option String)
    (thresholds_dict : List (String × String))
    (actions_dict : List (String × String))
    (final_actions_dict : List (String × String))
    (brief : Option Bool) (lang : Option String) (locale : Option String) :
    List Effect × Except (PyError × AppContext) (ValidatorInfo × AppContext) :=
  match dictGet ctx.loaded_dataframes df_id with
  | none =>
    ([], .error (.valueError
      ("DataFrame ID \x27" ++ df_id ++
        "\x27 not found. Please load it first using \x27load_dataframe\x27."), ctx))
  | some df =>
    let effective_validator_id := orDefault validator_id ("validator_" ++ env.freshHex)
    if (dictGet ctx.active_validators effective_validator_id).isSome then
      ([], .error (.valueError
        ("Validator ID \x27" ++ effective_validator_id ++
          "\x27 already exists. Choose a different ID or omit to generate a new one."), ctx))
    else
      let actual_table_name := orDefault table_name ("table_for_" ++ df_id)
      let actual_validator_label :=
        orDefault validator_label ("Validation for " ++ actual_table_name)
      match (if thresholds_dict.isEmpty then .ok none else
          match env.engine.mkThresholds thresholds_dict with
          | .ok t => .ok (some t)
          | .error e => .error e : Except String (Option ThresholdsObj)) with
      | .error e =>
        ([], .error (.valueError
          ("Error creating pb.Thresholds from thresholds_dict: " ++ e), ctx))
      | .ok pb_thresholds =>
        let actionsOutcome : List Effect × Option ActionsObj :=
          if actions_dict.isEmpty then ([], none) else
            match env.engine.mkActions actions_dict with
            | .ok a => ([], some a)
            | .error e =>
              ([.printMsg ("Could not create pb.Actions from actions_dict: " ++ e ++
                ". Passing None.")], none)
        let finalActionsOutcome : List Effect × Option FinalActionsObj :=
          if final_actions_dict.isEmpty then ([], none) else
            match env.engine.mkFinalActions final_actions_dict with
            | .ok a => ([], some a)
            | .error e =>
              ([.printMsg ("Could not create pb.FinalActions from final_actions_dict: " ++ e ++
                ". Passing None.")], none)
        let validator_instance : Validate :=
          { data := df
            tbl_name := actual_table_name
            label := actual_validator_label
            thresholds := pb_thresholds
            actions := actionsOutcome.2
            final_actions := finalActionsOutcome.2
            brief := brief
            lang := match lang with | some s => if s = "" then none else some s | none => none
            locale := match locale with | some s => if s = "" then none else some s | none => none }
        (actionsOutcome.1 ++ finalActionsOutcome.1,
          .ok ({ validator_id := effective_validator_id },
            { ctx with active_validators :=
                ctx.active_validators ++ [(effective_validator_id, validator_instance)] }))

/-- Return payload of `add_validation_step`: the validator id and a status
string (the source returns no step index). -/
structure ValidationStepInfo where
  validator_id : String
  status : String
deriving DecidableEq, Repr

/-- The closed dispatch table `supported_validations`: tool-facing
validation-type names mapped to the engine method each resolves to, in
source order. -/
def supportedValidationTable : List (String × String) :=
  [("col_vals_lt", "col_vals_lt"),
   ("col_vals_gt", "col_vals_gt"),
   ("col_vals_lte", "col_vals_le"),
   ("col_vals_gte", "col_vals_ge"),
   ("col_vals_equal", "col_vals_eq"),
   ("col_vals_not_equal", "col_vals_ne"),
   ("col_vals_between", "col_vals_between"),
   ("col_vals_not_between", "col_vals_outside"),
   ("col_vals_in_set", "col_vals_in_set"),
   ("col_vals_not_in_set", "col_vals_not_in_set"),
   ("col_vals_null", "col_vals_null"),
   ("col_vals_not_null", "col_vals_not_null"),
   ("col_vals_regex", "col_vals_regex"),
   ("col_vals_expr", "col_vals_expr"),
   ("col_count_match", "col_count_match"),
   ("col_exists", "col_exists"),
   ("rows_distinct", "rows_distinct"),
   ("rows_complete", "rows_complete"),
   ("row_count_match", "row_count_match"),
   ("conjointly", "conjointly"),
   ("col_schema_match", "col_schema_match")]

/-- The supported validation-type vocabulary, in dispatch-table order
(Python `list(supported_validations.keys())`). -/
def supportedValidationNames : List String :=
  supportedValidationTable.map Prod.fst

/-- Python `repr` of a list of strings, as interpolated into the
unsupported-type error message. -/
def pyStrList (l : List String) : String :=
  "[" ++ String.intercalate ", " (l.map (fun s => "\x27" ++ s ++ "\x27")) ++ "]"

/-- The error message for an unsupported validation type, enumerating the
whole vocabulary. -/
def unsupportedTypeMsg (vt : String) : String :=
  "Unsupported validation_type: \x27" ++ vt ++ "\x27. Supported types include: " ++
    pyStrList supportedValidationNames

/-- The status string a successful `add_validation_step` returns. -/
def stepStatusMsg (vt : String) : String :=
  "Validation step \x27" ++ vt ++ "\x27 added successfully."

/-- The `add_validation_step` tool: validator lookup, closed-vocabulary
dispatch, engine invocation (a `TypeError` is re-raised as `ValueError`
echoing the type and parameters, any other failure as `RuntimeError`),
and on success the step is appended to the pipeline in call order. -/
def add_validation_step (env : Env) (ctx : AppContext) (validator_id : String)
    (validation_type : String) (params : List (String × String))
    (actions_config : List (String × String)) :
    List Effect × Except (PyError × AppContext) (ValidationStepInfo × AppContext) :=
  match dictGet ctx.active_validators validator_id with
  | none =>
    ([], .error (.valueError
      ("Validator ID \x27" ++ validator_id ++
        "\x27 not found. Please create it first using \x27create_validator\x27."), ctx))
  | some validator =>
    match dictGet supportedValidationTable validation_type with
    | none => ([], .error (.valueError (unsupportedTypeMsg validation_type), ctx))
    | some methodName =>
      -- `actions_config` is accepted but explicitly a no-op in the source.
      let current_params := params
      match env.engine.runStep methodName current_params with
      | some (.typeError e) =>
        ([.engineStepCall methodName], .error (.valueError
          ("Error calling validation method \x27" ++ validation_type ++
            "\x27 with params " ++ pyStrList (current_params.map Prod.fst) ++
            ". Original error: " ++ e ++
            ". Check parameter names and types against Pointblank\x27s API for the \x27" ++
            validation_type ++ "\x27 method of the \x27Validate\x27 class."), ctx))
      | some (.otherError e) =>
        ([.engineStepCall methodName], .error (.runtimeError
          ("An unexpected error occurred while adding validation step \x27" ++
            validation_type ++ "\x27: " ++ e), ctx))
      | none =>
        let validator' :=
          { validator with steps := validator.steps ++ [⟨methodName, current_params⟩] }
        ([.engineStepCall methodName],
          .ok ({ validator_id := validator_id, status := stepStatusMsg validation_type },
            { ctx with active_validators :=
                dictSet ctx.active_validators validator_id validator' }))

/-- Return payload of `get_validation_step_output`. -/
structure ValidationOutput where
  status : String
  message : String
  output_file : Option String := none
deriving DecidableEq, Repr

/-- The explanatory message for absent/empty step evidence. -/
def noExtractMsg (i : Int) : String :=
  "No data extract available for step " ++ toString i ++
    ". This may mean all rows passed this validation step."

/-- The explanatory message for absent/empty sundered data. -/
def noSunderedMsg (t : String) : String :=
  "No sundered data available for type \x27" ++ t ++ "\x27."

/-- The `get_validation_step_output` tool (the Result Extractor): id
lookup, `.csv` suffix gate, negative-index gate; then a warning when the
validator was never interrogated (the source announces an interrogation
it never performs), directory creation, and one of the two mutually
exclusive retrieval pathways, with `step_index` taking precedence.
Empty or absent evidence is a no-op success; a write failure is wrapped
in a hard `RuntimeError`. -/
def get_validation_step_output (env : Env) (ctx : AppContext) (validator_id : String)
    (output_path : String) (sundered_type : String) (step_index : Option Int) :
    List Effect × Except (PyError × AppContext) (ValidationOutput × AppContext) :=
  match dictGet ctx.active_validators validator_id with
  | none =>
    ([], .error (.valueError
      ("Validator ID \x27" ++ validator_id ++ "\x27 not found."), ctx))
  | some validator =>
    if strLower (pathSuffix output_path) ≠ ".csv" then
      ([], .error (.valueError
        ("Unsupported file format \x27" ++ pathSuffix output_path ++
          "\x27. Please use \x27.csv\x27."), ctx))
    else if (match step_index with | some i => decide (i < 0) | none => false : Bool) then
      ([], .error (.valueError "The \x27step_index\x27 cannot be a negative number.", ctx))
    else
      let warnEffs : List Effect :=
        if validator.time_processed then [] else
          [.warning ("Validator \x27" ++ validator_id ++
            "\x27 has not been interrogated. Interrogating now.")]
      let effs0 := warnEffs ++ [.mkdir (pathParent output_path)]
      match step_index with
      | some i =>
        let effs1 := effs0 ++ [.getDataExtracts i]
        let emptyOut : ValidationOutput :=
          { status := "success", message := noExtractMsg i, output_file := none }
        match dictGet validator.data_extracts i with
        | none => (effs1, .ok (emptyOut, ctx))
        | some df =>
          if df.empty then
            (effs1, .ok (emptyOut, ctx))
          else
            match env.writeOk output_path with
            | some err =>
              (effs1, .error (.runtimeError
                ("Error getting output for validator \x27" ++ validator_id ++
                  "\x27: " ++ err), ctx))
            | none =>
              let msg := "Data extract saved to " ++ env.resolve output_path
              let savedOut : ValidationOutput :=
                { status := "success", message := msg,
                  output_file := some (env.resolve output_path) }
              (effs1 ++ [.writeCsv output_path, .reportProgress msg],
                .ok (savedOut, ctx))
      | none =>
        let effs1 := effs0 ++ [.getSunderedData sundered_type]
        let emptyOut : ValidationOutput :=
          { status := "success", message := noSunderedMsg sundered_type, output_file := none }
        match dictGet validator.sundered sundered_type with
        | none => (effs1, .ok (emptyOut, ctx))
        | some df =>
          if df.empty then
            (effs1, .ok (emptyOut, ctx))
          else
            match env.writeOk output_path with
            | some err =>
              (effs1, .error (.runtimeError
                ("Error getting output for validator \x27" ++ validator_id ++
                  "\x27: " ++ err), ctx))
            | none =>
              let msg := "Data extract saved to " ++ env.resolve output_path
              let savedOut : ValidationOutput :=
                { status := "success", message := msg,
                  output_file := some (env.resolve output_path) }
              (effs1 ++ [.writeCsv output_path, .reportProgress msg],
                .ok (savedOut, ctx))

/-- Return payload of `interrogate_validator` (`output_dict`): the parsed
report, and optionally exactly one of the save-path / save-error fields. -/
structure InterrogateOutput where
  validation_summary : String
  csv_report_saved_to : Option String := none
  report_save_error : Option String := none
deriving DecidableEq, Repr

/-- The `interrogate_validator` tool (the Interrogation Runner): id
lookup, full-pipeline engine execution (its failure is re-raised as
`RuntimeError`), storage of the refreshed results on the registered
validator, then — only when a truthy report path is given — the `.csv`
extension gate and the report write, both of whose failures are recorded
softly in `report_save_error` instead of being raised. -/
def interrogate_validator (env : Env) (ctx : AppContext) (validator_id : String)
    (report_file_path : Option String) :
    List Effect × Except (PyError × AppContext) (InterrogateOutput × AppContext) :=
  match dictGet ctx.active_validators validator_id with
  | none =>
    ([], .error (.valueError
      ("Validator ID \x27" ++ validator_id ++ "\x27 not found."), ctx))
  | some validator =>
    match env.engine.interrogate validator with
    | .error e =>
      ([.interrogateCall], .error (.runtimeError
        ("Error during validator interrogation: " ++ e), ctx))
    | .ok ires =>
      let validator' :=
        { validator with
          time_processed := true
          data_extracts := ires.extracts
          sundered := ires.sundered
          json_report := ires.json_report }
      let ctx' :=
        { ctx with active_validators := dictSet ctx.active_validators validator_id validator' }
      let base : InterrogateOutput := { validation_summary := ires.json_report }
      match report_file_path with
      | none => ([.interrogateCall], .ok (base, ctx'))
      | some p =>
        if p = "" then ([.interrogateCall], .ok (base, ctx'))
        else if ¬ strEndsWith (strLower p) ".csv" then
          ([.interrogateCall, .printMsg "Unsupported report file extension. Use .csv."],
            .ok ({ base with
              report_save_error := some "Unsupported report file extension. Use .csv." }, ctx'))
        else
          let effs := [Effect.interrogateCall, .mkdir (pathParent p)]
          match env.writeOk p with
          | some err =>
            let emsg := "Failed to save report to " ++ p ++ ": " ++ err
            (effs ++ [.printMsg emsg],
              .ok ({ base with report_save_error := some emsg }, ctx'))
          | none =>
            let saved := env.resolve p
            (effs ++ [.writeCsv p, .reportProgress ("Report saved to " ++ saved)],
              .ok ({ base with csv_report_saved_to := some saved }, ctx'))

/-! ## Helper lemmas about the dict model -/

theorem dictGet_dictSet_self {κ α : Type} [DecidableEq κ] (l : List (κ × α)) (k : κ) (v : α) :
    dictGet (dictSet l k v) k = some v := by
  induction l with
  | nil => simp [dictSet, dictGet]
  | cons hd t ih =>
    obtain ⟨k0, v0⟩ := hd
    by_cases hk : k0 = k
    · subst hk; simp [dictSet, dictGet]
    · simp [dictSet, dictGet, hk, ih]

theorem dictGet_append_last {κ α : Type} [DecidableEq κ] (l : List (κ × α)) (k : κ) (v : α)
    (h : dictGet l k = none) : dictGet (l ++ [(k, v)]) k = some v := by
  induction l with
  | nil => simp [dictGet]
  | cons hd t ih =>
    obtain ⟨k0, v0⟩ := hd
    by_cases hk : k0 = k
    · simp [dictGet, hk] at h
    · simp only [List.cons_append, dictGet, hk, if_neg hk] at h ⊢
      exact ih h

/-- Substring test on the underlying character lists, used to express that
an error message enumerates a vocabulary. -/
def charsContain (hay needle : List Char) : Bool :=
  match hay with
  | [] => needle.isEmpty
  | _ :: t => needle.isPrefixOf hay || charsContain t needle

/-- Substring test on strings. -/
def strContains (s pat : String) : Bool :=
  charsContain s.data pat.data

/-! ## Concrete fixtures for witnesses and counterexamples -/

/-- A small loaded table. -/
def dfA : DataFrame := { columns := ["age"], rows := [["5"], ["150"]] }

/-- Row-level evidence recorded for a failing step. -/
def failDf : DataFrame := { columns := ["age"], rows := [["150"]] }

/-- Evidence with zero rows (every row passed). -/
def emptyDf : DataFrame := { columns := ["age"], rows := [] }

/-- Engine oracle on which every operation succeeds, and interrogation
always yields the same small report and evidence. -/
def engineOk : Engine :=
  { runStep := fun _ _ => none
    interrogate := fun _ => .ok
      { json_report := "[]", extracts := [(0, failDf)], sundered := [("fail", failDf)] }
    mkThresholds := fun d => .ok { raw := d }
    mkActions := fun d => .ok { raw := d }
    mkFinalActions := fun d => .ok { raw := d }
    reportToDf := fun _ => { } }

/-- Engine oracle that rejects every constructor and method call. -/
def engineRejects : Engine :=
  { runStep := fun _ _ => some (.typeError "unexpected keyword argument")
    interrogate := fun _ => .error "engine crash"
    mkThresholds := fun _ => .error "bad thresholds"
    mkActions := fun _ => .error "bad actions"
    mkFinalActions := fun _ => .error "bad final actions"
    reportToDf := fun _ => { } }

/-- Environment with a healthy engine and a writable file system. -/
def envA : Env :=
  { engine := engineOk
    files := [("data.csv", dfA), ("notes.txt", dfA)] }

/-- Environment whose destination file system rejects every write. -/
def envW : Env :=
  { engine := engineOk
    files := [("data.csv", dfA), ("notes.txt", dfA)]
    writeOk := fun _ => some "disk full" }

/-- Environment whose engine rejects configuration constructors. -/
def envRejects : Env :=
  { engine := engineRejects
    files := [("data.csv", dfA), ("notes.txt", dfA)] }

/-- A freshly created, never-interrogated pipeline bound to `dfA`. -/
def vA : Validate :=
  { data := dfA, tbl_name := "table_for_df1", label := "Validation for table_for_df1" }

/-- An interrogated pipeline: step 0 has failing-row evidence, step 1 has
empty evidence. -/
def vB : Validate :=
  { vA with
    time_processed := true
    data_extracts := [(0, failDf), (1, emptyDf)]
    sundered := [("fail", failDf)]
    json_report := "[]" }

/-- Session with one loaded table and one fresh pipeline. -/
def ctxA : AppContext :=
  { loaded_dataframes := [("df1", dfA)], active_validators := [("v1", vA)] }

/-- Session with one loaded table and one interrogated pipeline. -/
def ctxB : AppContext :=
  { loaded_dataframes := [("df1", dfA)], active_validators := [("v1", vB)] }

/-! ## Claims -/

/-- C1: for every pipeline whose interrogated flag is not set, the extract
operation emits the "has not been interrogated. Interrogating now."
warning, but — contrary to the warning's own text and to the spec — it
never performs the announced interrogation: no interrogation effect
occurs, and any successful extraction leaves the session state (hence the
stale, never-computed evidence) unchanged. -/
theorem C1_extract_warns_but_never_interrogates
    (env : Env) (ctx : AppContext) (vid path st : String) (si : Option Int) (v : Validate)
    (hv : dictGet ctx.active_validators vid = some v)
    (hnp : v.time_processed = false)
    (hcsv : strLower (pathSuffix path) = ".csv")
    (hsi : ∀ i : Int, si = some i → 0 ≤ i) :
    Effect.warning ("Validator \x27" ++ vid ++
        "\x27 has not been interrogated. Interrogating now.")
      ∈ (get_validation_step_output env ctx vid path st si).1
    ∧ Effect.interrogateCall ∉ (get_validation_step_output env ctx vid path st si).1
    ∧ ∀ out ctx2, (get_validation_step_output env ctx vid path st si).2 = .ok (out, ctx2) →
        ctx2 = ctx := by
  unfold get_validation_step_output
  rw [hv]
  cases si with
  | some i =>
    have hnn : ¬ i < 0 := not_lt.mpr (hsi i rfl)
    rcases hdg : dictGet v.data_extracts i with _ | df
    · simp [hcsv, hnn, hnp, hdg]
    · rcases hde : df.empty with _ | _
      · rcases hw : env.writeOk path with _ | err <;> simp [hcsv, hnn, hnp, hdg, hde, hw]
      · simp [hcsv, hnn, hnp, hdg, hde]
  | none =>
    rcases hdg : dictGet v.sundered st with _ | df
    · simp [hcsv, hnp, hdg]
    · rcases hde : df.empty with _ | _
      · rcases hw : env.writeOk path with _ | err <;> simp [hcsv, hnp, hdg, hde, hw]
      · simp [hcsv, hnp, hdg, hde]

/-- Witness for C1 at a concrete non-interrogated pipeline. -/
theorem C1_extract_warns_but_never_interrogates_witness :
    Effect.warning ("Validator \x27v1\x27 has not been interrogated. Interrogating now.")
      ∈ (get_validation_step_output envA ctxA "v1" "out.csv" "fail" (some 0)).1
    ∧ Effect.interrogateCall ∉ (get_validation_step_output envA ctxA "v1" "out.csv" "fail" (some 0)).1
    ∧ ∀ out ctx2,
        (get_validation_step_output envA ctxA "v1" "out.csv" "fail" (some 0)).2 = .ok (out, ctx2) →
        ctx2 = ctxA :=
  C1_extract_warns_but_never_interrogates envA ctxA "v1" "out.csv" "fail" (some 0) vA
    (by decide) (by decide) (by decide)
    (by intro i h; injection h with h2; omega)

/-- Parameters of the example `col_vals_lt` step. -/
def c2Params : List (String × String) := [("columns", "age"), ("value", "100")]

/-- The step those parameters append. -/
def c2Step : ValidationStep := { method := "col_vals_lt", params := c2Params }

/-- Session after one successful append to `v1`. -/
def c2Ctx1 : AppContext :=
  { loaded_dataframes := [("df1", dfA)]
    active_validators := [("v1", { vA with steps := [c2Step] })] }

/-- Session after two successful appends to `v1`. -/
def c2Ctx2 : AppContext :=
  { loaded_dataframes := [("df1", dfA)]
    active_validators := [("v1", { vA with steps := [c2Step, c2Step] })] }

/-- C2 counterexample: two successive successful `add_validation_step`
calls append the steps at indices 0 and 1, yet both calls return the
identical payload — the validator id plus a constant status string — so
the operation does not return the new step's index (were the claim true,
the two returns would have been the distinct values 0 and 1). -/
theorem C2_counterexample :
    (add_validation_step envA ctxA "v1" "col_vals_lt" c2Params []).2
      = .ok ({ validator_id := "v1", status := stepStatusMsg "col_vals_lt" }, c2Ctx1)
    ∧ (add_validation_step envA c2Ctx1 "v1" "col_vals_lt" c2Params []).2
      = .ok ({ validator_id := "v1", status := stepStatusMsg "col_vals_lt" }, c2Ctx2)
    ∧ (dictGet c2Ctx1.active_validators "v1").map (fun w => w.steps.length) = some 1
    ∧ (dictGet c2Ctx2.active_validators "v1").map (fun w => w.steps.length) = some 2 :=
  ⟨rfl, rfl, rfl, rfl⟩

/-- C2 amended: a successful `add_validation_step` returns the validator
id with a status string (not the step index); the new step is appended at
the end of the pipeline's step sequence, so its insertion index equals
the prior step count and repeated successful appends occupy indices
0, 1, 2, ... in call order. -/
theorem C2_amended_append_in_call_order
    (env : Env) (ctx : AppContext) (vid vt : String)
    (params acfg : List (String × String)) (v : Validate) (mname : String)
    (hv : dictGet ctx.active_validators vid = some v)
    (hm : dictGet supportedValidationTable vt = some mname)
    (hok : env.engine.runStep mname params = none) :
    ∃ ctx', (add_validation_step env ctx vid vt params acfg).2
        = .ok ({ validator_id := vid, status := stepStatusMsg vt }, ctx')
      ∧ dictGet ctx'.active_validators vid
          = some { v with steps := v.steps ++ [{ method := mname, params := params }] }
      ∧ (dictGet ctx'.active_validators vid).map (fun w => w.steps.length)
          = some (v.steps.length + 1) := by
  have hstep : add_validation_step env ctx vid vt params acfg
      = ([.engineStepCall mname],
        .ok ({ validator_id := vid, status := stepStatusMsg vt },
          { ctx with active_validators := (dictSet ctx.active_validators vid { v with steps := v.steps ++ [{ method := mname, params := params }] }) })) := by
    simp only [add_validation_step, hv, hm, hok]
  refine ⟨_, by rw [hstep], ?_, ?_⟩
  · exact dictGet_dictSet_self ..
  · rw [dictGet_dictSet_self]
    simp

/-- Witness for C2's amended theorem at a concrete append. -/
theorem C2_amended_append_in_call_order_witness :
    ∃ ctx', (add_validation_step envA ctxA "v1" "col_vals_lt" c2Params []).2
        = .ok ({ validator_id := "v1", status := stepStatusMsg "col_vals_lt" }, ctx')
      ∧ dictGet ctx'.active_validators "v1"
          = some { vA with steps := vA.steps ++ [{ method := "col_vals_lt", params := c2Params }] }
      ∧ (dictGet ctx'.active_validators "v1").map (fun w => w.steps.length)
          = some (vA.steps.length + 1) :=
  C2_amended_append_in_call_order envA ctxA "v1" "col_vals_lt" c2Params [] vA "col_vals_lt"
    rfl rfl rfl

/-- The interrogation outcome the healthy engine always produces. -/
def iresA : IResult :=
  { json_report := "[]", extracts := [(0, failDf)], sundered := [("fail", failDf)] }

/-- The validator `vA` after storing `iresA`. -/
def vAInterrogated : Validate :=
  { vA with
    time_processed := true
    data_extracts := [(0, failDf)]
    sundered := [("fail", failDf)]
    json_report := "[]" }

/-- Session `ctxA` after the interrogation side effect on `v1`. -/
def c3Ctx : AppContext :=
  { loaded_dataframes := [("df1", dfA)], active_validators := [("v1", vAInterrogated)] }

/-- The stored validator state after a successful interrogation with
outcome `ires` (what the `interrogate_validator` handler stores back). -/
def Validate.afterInterrogation (v : Validate) (ires : IResult) : Validate :=
  { v with
    time_processed := true
    data_extracts := ires.extracts
    sundered := ires.sundered
    json_report := ires.json_report }

/-- The soft-error payload returned for a non-csv report destination. -/
def c3Out : InterrogateOutput :=
  { validation_summary := "[]"
    csv_report_saved_to := none
    report_save_error := some "Unsupported report file extension. Use .csv." }

/-- C3 counterexample: interrogating with the non-csv destination
`report.txt` does not reject the path before computing — the engine
interrogation runs (the interrogation effect is emitted and the stored
validator's interrogated flag is set), the call returns successfully, and
the bad extension surfaces only as the soft `report_save_error` field. -/
theorem C3_counterexample :
    (interrogate_validator envA ctxA "v1" (some "report.txt")).2 = .ok (c3Out, c3Ctx)
    ∧ Effect.interrogateCall ∈ (interrogate_validator envA ctxA "v1" (some "report.txt")).1
    ∧ (dictGet c3Ctx.active_validators "v1").map Validate.time_processed = some true :=
  ⟨rfl, by decide, rfl⟩

/-- C3 amended: only the extract operation rejects a non-csv destination
before any computation (it raises with an empty effect trace and an
unchanged session); the interrogate operation instead runs the full
validation computation first and then records a non-csv report
destination as the soft in-payload `report_save_error`, writing no file
and raising nothing. -/
theorem C3_amended_extension_gate :
    (∀ (env : Env) (ctx : AppContext) (vid path st : String) (si : Option Int) (v : Validate),
      dictGet ctx.active_validators vid = some v →
      strLower (pathSuffix path) ≠ ".csv" →
      get_validation_step_output env ctx vid path st si
        = ([], .error (.valueError ("Unsupported file format \x27" ++ pathSuffix path ++
            "\x27. Please use \x27.csv\x27."), ctx)))
    ∧ (∀ (env : Env) (ctx : AppContext) (vid p : String) (v : Validate) (ires : IResult),
      dictGet ctx.active_validators vid = some v →
      env.engine.interrogate v = .ok ires →
      p ≠ "" →
      strEndsWith (strLower p) ".csv" = false →
      ∃ ctx', interrogate_validator env ctx vid (some p)
        = ([.interrogateCall, .printMsg "Unsupported report file extension. Use .csv."],
          .ok ({ validation_summary := ires.json_report
                 csv_report_saved_to := none
                 report_save_error := some "Unsupported report file extension. Use .csv." },
            ctx'))) := by
  constructor
  · intro env ctx vid path st si v hv hne
    simp only [get_validation_step_output, hv]
    rw [if_pos hne]
  · intro env ctx vid p v ires hv hi hp hend
    refine ⟨{ ctx with active_validators := (dictSet ctx.active_validators vid (Validate.afterInterrogation v ires)) }, ?_⟩
    simp only [interrogate_validator, hv, hi]
    rw [if_neg hp, if_pos (by simp [hend])]
    rfl

/-- Witness for C3's amended theorem at concrete inputs. -/
theorem C3_amended_extension_gate_witness :
    (get_validation_step_output envA ctxA "v1" "out.parquet" "fail" none
      = ([], .error (.valueError ("Unsupported file format \x27" ++ pathSuffix "out.parquet" ++
          "\x27. Please use \x27.csv\x27."), ctxA)))
    ∧ ∃ ctx', interrogate_validator envA ctxA "v1" (some "report.txt")
        = ([.interrogateCall, .printMsg "Unsupported report file extension. Use .csv."],
          .ok ({ validation_summary := iresA.json_report
                 csv_report_saved_to := none
                 report_save_error := some "Unsupported report file extension. Use .csv." },
            ctx')) :=
  ⟨C3_amended_extension_gate.1 envA ctxA "v1" "out.parquet" "fail" none vA rfl (by decide),
   C3_amended_extension_gate.2 envA ctxA "v1" "report.txt" vA iresA rfl rfl
     (by decide) (by decide)⟩

/-- C4: a persistence failure while writing the interrogation report is
downgraded to the soft `report_save_error` field of the returned payload
— the computed report (`validation_summary`) is still returned and
nothing is raised — whereas a persistence failure during the dedicated
extract operation is raised as a hard `RuntimeError`, in step-index mode
and in sundered mode alike. -/
theorem C4_persistence_soft_interrogate_hard_extract :
    (∀ (env : Env) (ctx : AppContext) (vid p err : String) (v : Validate) (ires : IResult),
      dictGet ctx.active_validators vid = some v →
      env.engine.interrogate v = .ok ires →
      p ≠ "" →
      strEndsWith (strLower p) ".csv" = true →
      env.writeOk p = some err →
      ∃ ctx', (interrogate_validator env ctx vid (some p)).2
        = .ok ({ validation_summary := ires.json_report
                 csv_report_saved_to := none
                 report_save_error := some ("Failed to save report to " ++ p ++ ": " ++ err) },
            ctx'))
    ∧ (∀ (env : Env) (ctx : AppContext) (vid path st err : String) (i : Int)
        (v : Validate) (df : DataFrame),
      dictGet ctx.active_validators vid = some v →
      strLower (pathSuffix path) = ".csv" →
      0 ≤ i →
      dictGet v.data_extracts i = some df →
      df.empty = false →
      env.writeOk path = some err →
      (get_validation_step_output env ctx vid path st (some i)).2
        = .error (.runtimeError ("Error getting output for validator \x27" ++ vid ++
            "\x27: " ++ err), ctx))
    ∧ (∀ (env : Env) (ctx : AppContext) (vid path st err : String)
        (v : Validate) (df : DataFrame),
      dictGet ctx.active_validators vid = some v →
      strLower (pathSuffix path) = ".csv" →
      dictGet v.sundered st = some df →
      df.empty = false →
      env.writeOk path = some err →
      (get_validation_step_output env ctx vid path st none).2
        = .error (.runtimeError ("Error getting output for validator \x27" ++ vid ++
            "\x27: " ++ err), ctx)) := by
  refine ⟨?_, ?_, ?_⟩
  · intro env ctx vid p err v ires hv hi hp hend hw
    refine ⟨{ ctx with active_validators := (dictSet ctx.active_validators vid (Validate.afterInterrogation v ires)) }, ?_⟩
    simp only [interrogate_validator, hv, hi]
    rw [if_neg hp, if_neg (by simp [hend])]
    simp only [hw]
    rfl
  · intro env ctx vid path st err i v df hv hcsv hi hdg hde hw
    have hnn : ¬ i < 0 := not_lt.mpr hi
    simp only [get_validation_step_output, hv]
    simp [hcsv, hnn, hdg, hde, hw]
  · intro env ctx vid path st err v df hv hcsv hdg hde hw
    simp only [get_validation_step_output, hv]
    simp [hcsv, hdg, hde, hw]

/-- Witness for C4 at a write-failing environment. -/
theorem C4_persistence_soft_interrogate_hard_extract_witness :
    (∃ ctx', (interrogate_validator envW ctxA "v1" (some "report.csv")).2
      = .ok ({ validation_summary := iresA.json_report
               csv_report_saved_to := none
               report_save_error := some ("Failed to save report to " ++ "report.csv" ++ ": " ++
                 "disk full") },
          ctx'))
    ∧ (get_validation_step_output envW ctxB "v1" "out.csv" "fail" (some 0)).2
      = .error (.runtimeError ("Error getting output for validator \x27v1\x27: " ++ "disk full"),
          ctxB)
    ∧ (get_validation_step_output envW ctxB "v1" "out.csv" "fail" none).2
      = .error (.runtimeError ("Error getting output for validator \x27v1\x27: " ++ "disk full"),
          ctxB) :=
  ⟨C4_persistence_soft_interrogate_hard_extract.1 envW ctxA "v1" "report.csv" "disk full" vA iresA
      rfl rfl (by decide) (by decide) rfl,
   C4_persistence_soft_interrogate_hard_extract.2.1 envW ctxB "v1" "out.csv" "fail" "disk full" 0
      vB failDf rfl (by decide) (by decide) rfl (by decide) rfl,
   C4_persistence_soft_interrogate_hard_extract.2.2 envW ctxB "v1" "out.csv" "fail" "disk full"
      vB failDf rfl (by decide) rfl (by decide) rfl⟩

theorem charsContain_append_of_right (a b n : List Char) (h : charsContain b n = true) :
    charsContain (a ++ b) n = true := by
  induction a with
  | nil => simpa using h
  | cons c t ih =>
    simp only [List.cons_append, charsContain, Bool.or_eq_true]
    exact Or.inr ih

set_option maxRecDepth 100000 in
/-- The rendered dispatch vocabulary contains every supported name. -/
theorem pyStrList_contains_names :
    ∀ n ∈ supportedValidationNames, strContains (pyStrList supportedValidationNames) n = true := by
  decide

/-- C5: an unsupported validation type on an existing pipeline raises a
`ValueError` whose message enumerates the whole supported vocabulary; the
effect trace is empty, so the engine method is never invoked, and the
error carries the input session unchanged, so the step count is
unchanged. -/
theorem C5_unsupported_type_rejected
    (env : Env) (ctx : AppContext) (vid vt : String)
    (params acfg : List (String × String)) (v : Validate)
    (hv : dictGet ctx.active_validators vid = some v)
    (hvt : dictGet supportedValidationTable vt = none) :
    add_validation_step env ctx vid vt params acfg
      = ([], .error (.valueError (unsupportedTypeMsg vt), ctx))
    ∧ (∀ m, Effect.engineStepCall m ∉ (add_validation_step env ctx vid vt params acfg).1)
    ∧ ∀ n ∈ supportedValidationNames, strContains (unsupportedTypeMsg vt) n = true := by
  have heq : add_validation_step env ctx vid vt params acfg
      = ([], .error (.valueError (unsupportedTypeMsg vt), ctx)) := by
    simp only [add_validation_step, hv, hvt]
  refine ⟨heq, ?_, ?_⟩
  · intro m
    rw [heq]
    simp
  · intro n hn
    have hbase := pyStrList_contains_names n hn
    unfold unsupportedTypeMsg strContains
    rw [String.data_append]
    exact charsContain_append_of_right _ _ _ (hbase)

/-- Witness for C5 at the unknown type `col_vals_bogus`. -/
theorem C5_unsupported_type_rejected_witness :
    add_validation_step envA ctxA "v1" "col_vals_bogus" [] []
      = ([], .error (.valueError (unsupportedTypeMsg "col_vals_bogus"), ctxA))
    ∧ (∀ m, Effect.engineStepCall m ∉ (add_validation_step envA ctxA "v1" "col_vals_bogus" [] []).1)
    ∧ ∀ n ∈ supportedValidationNames,
        strContains (unsupportedTypeMsg "col_vals_bogus") n = true :=
  C5_unsupported_type_rejected envA ctxA "v1" "col_vals_bogus" [] [] vA rfl rfl

/-- C6: when both `step_index` and `sundered_type` are supplied, the
step-index mode is authoritative — the outcome is identical for any two
`sundered_type` values, and no sundered-data retrieval effect ever
occurs. -/
theorem C6_step_index_authoritative (env : Env) (ctx : AppContext)
    (vid path st1 st2 : String) (i : Int) :
    get_validation_step_output env ctx vid path st1 (some i)
      = get_validation_step_output env ctx vid path st2 (some i)
    ∧ ∀ t, Effect.getSunderedData t ∉ (get_validation_step_output env ctx vid path st1 (some i)).1 := by
  constructor
  · rfl
  · intro t
    unfold get_validation_step_output
    cases dictGet ctx.active_validators vid with
    | none => simp
    | some v =>
      dsimp only
      split
      · simp
      · split
        · simp
        · rcases hdg : dictGet v.data_extracts i with _ | df
          · cases htp : v.time_processed <;> simp [hdg, htp]
          · rcases hde : df.empty with _ | _
            · rcases hw : env.writeOk path with _ | err <;>
                cases htp : v.time_processed <;> simp [hdg, hde, hw, htp]
            · cases htp : v.time_processed <;> simp [hdg, hde, htp]

/-- Witness for C6 at a concrete extract request with both modes given. -/
theorem C6_step_index_authoritative_witness :
    get_validation_step_output envA ctxB "v1" "out.csv" "pass" (some 0)
      = get_validation_step_output envA ctxB "v1" "out.csv" "fail" (some 0)
    ∧ ∀ t, Effect.getSunderedData t
        ∉ (get_validation_step_output envA ctxB "v1" "out.csv" "pass" (some 0)).1 :=
  C6_step_index_authoritative envA ctxB "v1" "out.csv" "pass" "fail" 0

/-- C7: a negative `step_index` on an existing pipeline with a valid
`.csv` destination raises a `ValueError` with an empty effect trace — no
evidence retrieval and no file write take place — and the session is
unchanged. -/
theorem C7_negative_index_rejected (env : Env) (ctx : AppContext)
    (vid path st : String) (i : Int) (v : Validate)
    (hv : dictGet ctx.active_validators vid = some v)
    (hcsv : strLower (pathSuffix path) = ".csv")
    (hneg : i < 0) :
    get_validation_step_output env ctx vid path st (some i)
      = ([], .error (.valueError "The \x27step_index\x27 cannot be a negative number.", ctx)) := by
  simp only [get_validation_step_output, hv]
  rw [if_neg (by simp [hcsv]), if_pos (by simp [hneg])]

/-- Witness for C7 at `step_index = -1`. -/
theorem C7_negative_index_rejected_witness :
    get_validation_step_output envA ctxA "v1" "out.csv" "fail" (some (-1))
      = ([], .error (.valueError "The \x27step_index\x27 cannot be a negative number.", ctxA)) :=
  C7_negative_index_rejected envA ctxA "v1" "out.csv" "fail" (-1) vA rfl (by decide) (by decide)

/-- C8: in step-index mode, empty or absent recorded evidence yields a
success payload with the explanatory message and no output file — no
error is raised and no file write occurs. -/
theorem C8_empty_evidence_noop (env : Env) (ctx : AppContext)
    (vid path st : String) (i : Int) (v : Validate)
    (hv : dictGet ctx.active_validators vid = some v)
    (hcsv : strLower (pathSuffix path) = ".csv")
    (hi : 0 ≤ i)
    (hemp : dictGet v.data_extracts i = none
      ∨ ∃ df, dictGet v.data_extracts i = some df ∧ df.empty = true) :
    (get_validation_step_output env ctx vid path st (some i)).2
      = .ok ({ status := "success", message := noExtractMsg i, output_file := none }, ctx)
    ∧ ∀ q, Effect.writeCsv q ∉ (get_validation_step_output env ctx vid path st (some i)).1 := by
  have hnn : ¬ i < 0 := not_lt.mpr hi
  rcases hemp with hdg | ⟨df, hdg, hde⟩
  · constructor
    · simp only [get_validation_step_output, hv]
      simp [hcsv, hnn, hdg]
    · intro q
      simp only [get_validation_step_output, hv]
      cases htp : v.time_processed <;> simp [hcsv, hnn, hdg, htp]
  · constructor
    · simp only [get_validation_step_output, hv]
      simp [hcsv, hnn, hdg, hde]
    · intro q
      simp only [get_validation_step_output, hv]
      cases htp : v.time_processed <;> simp [hcsv, hnn, hdg, hde, htp]

/-- Witness for C8 at the interrogated pipeline's step 1, whose recorded
evidence is empty. -/
theorem C8_empty_evidence_noop_witness :
    (get_validation_step_output envA ctxB "v1" "out.csv" "fail" (some 1)).2
      = .ok ({ status := "success", message := noExtractMsg 1, output_file := none }, ctxB)
    ∧ ∀ q, Effect.writeCsv q ∉ (get_validation_step_output envA ctxB "v1" "out.csv" "fail" (some 1)).1 :=
  C8_empty_evidence_noop envA ctxB "v1" "out.csv" "fail" 1 vB rfl (by decide) (by decide)
    (Or.inr ⟨emptyDf, by decide, rfl⟩)

/-- C9: every enumerated failure of the load and create operations —
unknown source, unsupported source extension, duplicate table id, unknown
table id, duplicate pipeline id, malformed thresholds — raises
immediately, and the error carries the input session unchanged: no
registry entry is added and no existing entry changes. -/
theorem C9_failed_load_create_do_not_mutate :
    (∀ (env : Env) (ctx : AppContext) (path : String) (did : Option String),
      dictGet env.files path = none →
      load_dataframe env ctx path did
        = .error (.fileNotFoundError ("Input file \x27" ++ path ++ "\x27 not found."), ctx))
    ∧ (∀ (env : Env) (ctx : AppContext) (path : String) (did : Option String) (df : DataFrame),
      dictGet env.files path = some df →
      strLower (pathSuffix path) ≠ ".csv" →
      ¬(strLower (pathSuffix path) = ".xls" ∨ strLower (pathSuffix path) = ".xlsx") →
      strLower (pathSuffix path) ≠ ".parquet" →
      load_dataframe env ctx path did
        = .error (.valueError ("Unsupported file type: " ++ pathSuffix path ++
            ". Please use CSV or Excel."), ctx))
    ∧ (∀ (env : Env) (ctx : AppContext) (path s : String) (df d0 : DataFrame),
      loadDataFrameFromPath env path = .ok df →
      s ≠ "" →
      dictGet ctx.loaded_dataframes s = some d0 →
      load_dataframe env ctx path (some s)
        = .error (.valueError ("DataFrame ID \x27" ++ s ++
            "\x27 already exists. Choose a different ID or omit to generate a new one."), ctx))
    ∧ (∀ (env : Env) (ctx : AppContext) (df_id : String) (vid tn vl : Option String)
        (td ad fd : List (String × String)) (br : Option Bool) (lg lc : Option String),
      dictGet ctx.loaded_dataframes df_id = none →
      create_validator env ctx df_id vid tn vl td ad fd br lg lc
        = ([], .error (.valueError ("DataFrame ID \x27" ++ df_id ++
            "\x27 not found. Please load it first using \x27load_dataframe\x27."), ctx)))
    ∧ (∀ (env : Env) (ctx : AppContext) (df_id : String) (vid tn vl : Option String)
        (td ad fd : List (String × String)) (br : Option Bool) (lg lc : Option String)
        (df : DataFrame) (v0 : Validate),
      dictGet ctx.loaded_dataframes df_id = some df →
      dictGet ctx.active_validators (orDefault vid ("validator_" ++ env.freshHex)) = some v0 →
      create_validator env ctx df_id vid tn vl td ad fd br lg lc
        = ([], .error (.valueError ("Validator ID \x27" ++
            orDefault vid ("validator_" ++ env.freshHex) ++
            "\x27 already exists. Choose a different ID or omit to generate a new one."), ctx)))
    ∧ (∀ (env : Env) (ctx : AppContext) (df_id : String) (vid tn vl : Option String)
        (td ad fd : List (String × String)) (br : Option Bool) (lg lc : Option String)
        (df : DataFrame) (e : String),
      dictGet ctx.loaded_dataframes df_id = some df →
      dictGet ctx.active_validators (orDefault vid ("validator_" ++ env.freshHex)) = none →
      td ≠ [] →
      env.engine.mkThresholds td = .error e →
      create_validator env ctx df_id vid tn vl td ad fd br lg lc
        = ([], .error (.valueError ("Error creating pb.Thresholds from thresholds_dict: " ++ e),
            ctx))) := by
  refine ⟨?_, ?_, ?_, ?_, ?_, ?_⟩
  · intro env ctx path did h
    simp only [load_dataframe, loadDataFrameFromPath, h]
  · intro env ctx path did df h h1 h2 h3
    have hload : loadDataFrameFromPath env path
        = .error (.valueError ("Unsupported file type: " ++ pathSuffix path ++
            ". Please use CSV or Excel.")) := by
      simp only [loadDataFrameFromPath, h]
      rw [if_neg h1, if_neg h2, if_neg h3]
    simp only [load_dataframe, hload]
  · intro env ctx path s df d0 hok hs hdup
    simp only [load_dataframe, hok, orDefault]
    rw [if_neg hs]
    simp [hdup]
  · intro env ctx df_id vid tn vl td ad fd br lg lc h
    simp only [create_validator, h]
  · intro env ctx df_id vid tn vl td ad fd br lg lc df v0 hdf hdup
    simp only [create_validator, hdf]
    simp [hdup]
  · intro env ctx df_id vid tn vl td ad fd br lg lc df e hdf hnone htd hthr
    have htdne : td.isEmpty = false := by
      cases td with
      | nil => exact absurd rfl htd
      | cons x xs => rfl
    simp only [create_validator, hdf]
    simp [hnone, htdne, hthr]

/-- Witness for C9 at concrete failing load and create calls. -/
theorem C9_failed_load_create_do_not_mutate_witness :
    (load_dataframe envA ctxA "missing.csv" none
      = .error (.fileNotFoundError ("Input file \x27missing.csv\x27 not found."), ctxA))
    ∧ (load_dataframe envA ctxA "notes.txt" none
      = .error (.valueError ("Unsupported file type: " ++ pathSuffix "notes.txt" ++
          ". Please use CSV or Excel."), ctxA))
    ∧ (load_dataframe envA ctxA "data.csv" (some "df1")
      = .error (.valueError ("DataFrame ID \x27df1\x27 already exists. Choose a different ID or omit to generate a new one."), ctxA))
    ∧ (create_validator envA ctxA "nope" none none none [] [] [] none none none
      = ([], .error (.valueError ("DataFrame ID \x27nope\x27 not found. Please load it first using \x27load_dataframe\x27."), ctxA)))
    ∧ (create_validator envA ctxA "df1" (some "v1") none none [] [] [] none none none
      = ([], .error (.valueError ("Validator ID \x27" ++ orDefault (some "v1") ("validator_" ++ envA.freshHex) ++ "\x27 already exists. Choose a different ID or omit to generate a new one."), ctxA)))
    ∧ (create_validator envRejects ctxA "df1" (some "v2") none none [("warning", "0.1")] [] [] none none none
      = ([], .error (.valueError ("Error creating pb.Thresholds from thresholds_dict: " ++
          "bad thresholds"), ctxA))) :=
  ⟨C9_failed_load_create_do_not_mutate.1 envA ctxA "missing.csv" none rfl,
   C9_failed_load_create_do_not_mutate.2.1 envA ctxA "notes.txt" none dfA rfl
     (by decide) (by decide) (by decide),
   C9_failed_load_create_do_not_mutate.2.2.1 envA ctxA "data.csv" "df1" dfA dfA rfl
     (by decide) rfl,
   C9_failed_load_create_do_not_mutate.2.2.2.1 envA ctxA "nope" none none none [] [] [] none
     none none rfl,
   C9_failed_load_create_do_not_mutate.2.2.2.2.1 envA ctxA "df1" (some "v1") none none [] [] []
     none none none dfA vA rfl rfl,
   C9_failed_load_create_do_not_mutate.2.2.2.2.2 envRejects ctxA "df1" (some "v2") none none
     [("warning", "0.1")] [] [] none none none dfA "bad thresholds" rfl rfl (by decide) rfl⟩

/-- C10: a malformed actions or final-actions configuration — whether
both dicts are malformed, only the actions dict is given and malformed,
or only the final-actions dict is given and malformed — does not fail
`create_validator`: the engine constructor's failure is only printed and
the rejected configuration is replaced by no actions, with the validator
still created and registered — whereas a malformed thresholds
configuration raises a `ValueError` and registers nothing. -/
theorem C10_malformed_actions_soft_thresholds_hard :
    (∀ (env : Env) (ctx : AppContext) (df_id : String) (vid tn vl : Option String)
        (ad fd : List (String × String)) (br : Option Bool) (lg lc : Option String)
        (df : DataFrame) (ea ef : String),
      dictGet ctx.loaded_dataframes df_id = some df →
      dictGet ctx.active_validators (orDefault vid ("validator_" ++ env.freshHex)) = none →
      ad ≠ [] → env.engine.mkActions ad = .error ea →
      fd ≠ [] → env.engine.mkFinalActions fd = .error ef →
      ∃ ctx' vinst,
        create_validator env ctx df_id vid tn vl [] ad fd br lg lc
          = ([.printMsg ("Could not create pb.Actions from actions_dict: " ++ ea ++
                ". Passing None."),
              .printMsg ("Could not create pb.FinalActions from final_actions_dict: " ++ ef ++
                ". Passing None.")],
            .ok ({ validator_id := orDefault vid ("validator_" ++ env.freshHex) }, ctx'))
        ∧ dictGet ctx'.active_validators (orDefault vid ("validator_" ++ env.freshHex))
            = some vinst
        ∧ vinst.actions = none ∧ vinst.final_actions = none)
    ∧ (∀ (env : Env) (ctx : AppContext) (df_id : String) (vid tn vl : Option String)
        (ad : List (String × String)) (br : Option Bool) (lg lc : Option String)
        (df : DataFrame) (ea : String),
      dictGet ctx.loaded_dataframes df_id = some df →
      dictGet ctx.active_validators (orDefault vid ("validator_" ++ env.freshHex)) = none →
      ad ≠ [] → env.engine.mkActions ad = .error ea →
      ∃ ctx' vinst,
        create_validator env ctx df_id vid tn vl [] ad [] br lg lc
          = ([.printMsg ("Could not create pb.Actions from actions_dict: " ++ ea ++
                ". Passing None.")],
            .ok ({ validator_id := orDefault vid ("validator_" ++ env.freshHex) }, ctx'))
        ∧ dictGet ctx'.active_validators (orDefault vid ("validator_" ++ env.freshHex))
            = some vinst
        ∧ vinst.actions = none ∧ vinst.final_actions = none)
    ∧ (∀ (env : Env) (ctx : AppContext) (df_id : String) (vid tn vl : Option String)
        (fd : List (String × String)) (br : Option Bool) (lg lc : Option String)
        (df : DataFrame) (ef : String),
      dictGet ctx.loaded_dataframes df_id = some df →
      dictGet ctx.active_validators (orDefault vid ("validator_" ++ env.freshHex)) = none →
      fd ≠ [] → env.engine.mkFinalActions fd = .error ef →
      ∃ ctx' vinst,
        create_validator env ctx df_id vid tn vl [] [] fd br lg lc
          = ([.printMsg ("Could not create pb.FinalActions from final_actions_dict: " ++ ef ++
                ". Passing None.")],
            .ok ({ validator_id := orDefault vid ("validator_" ++ env.freshHex) }, ctx'))
        ∧ dictGet ctx'.active_validators (orDefault vid ("validator_" ++ env.freshHex))
            = some vinst
        ∧ vinst.actions = none ∧ vinst.final_actions = none)
    ∧ (∀ (env : Env) (ctx : AppContext) (df_id : String) (vid tn vl : Option String)
        (td : List (String × String)) (br : Option Bool) (lg lc : Option String)
        (df : DataFrame) (e : String),
      dictGet ctx.loaded_dataframes df_id = some df →
      dictGet ctx.active_validators (orDefault vid ("validator_" ++ env.freshHex)) = none →
      td ≠ [] →
      env.engine.mkThresholds td = .error e →
      create_validator env ctx df_id vid tn vl td [] [] br lg lc
        = ([], .error (.valueError ("Error creating pb.Thresholds from thresholds_dict: " ++ e),
            ctx))) := by
  refine ⟨?_, ?_, ?_, ?_⟩
  · intro env ctx df_id vid tn vl ad fd br lg lc df ea ef hdf hnone ha hea hf hef
    have hadne : ad.isEmpty = false := by
      cases ad with
      | nil => exact absurd rfl ha
      | cons x xs => rfl
    have hfdne : fd.isEmpty = false := by
      cases fd with
      | nil => exact absurd rfl hf
      | cons x xs => rfl
    simp only [create_validator, hdf, hnone, Option.isSome_none, Bool.false_eq_true,
      if_false, List.isEmpty_nil, hadne, hea, hfdne, hef]
    refine ⟨_, _, rfl, dictGet_append_last _ _ _ hnone, rfl, rfl⟩
  · intro env ctx df_id vid tn vl ad br lg lc df ea hdf hnone ha hea
    have hadne : ad.isEmpty = false := by
      cases ad with
      | nil => exact absurd rfl ha
      | cons x xs => rfl
    simp only [create_validator, hdf, hnone, Option.isSome_none, Bool.false_eq_true,
      if_false, List.isEmpty_nil, hadne, hea]
    refine ⟨_, _, rfl, dictGet_append_last _ _ _ hnone, rfl, rfl⟩
  · intro env ctx df_id vid tn vl fd br lg lc df ef hdf hnone hf hef
    have hfdne : fd.isEmpty = false := by
      cases fd with
      | nil => exact absurd rfl hf
      | cons x xs => rfl
    simp only [create_validator, hdf, hnone, Option.isSome_none, Bool.false_eq_true,
      if_false, List.isEmpty_nil, hfdne, hef]
    refine ⟨_, _, rfl, dictGet_append_last _ _ _ hnone, rfl, rfl⟩
  · intro env ctx df_id vid tn vl td br lg lc df e hdf hnone htd hthr
    have htdne : td.isEmpty = false := by
      cases td with
      | nil => exact absurd rfl htd
      | cons x xs => rfl
    simp only [create_validator, hdf]
    simp [hnone, htdne, hthr]

/-- Witness for C10 at an engine that rejects every configuration
constructor. -/
theorem C10_malformed_actions_soft_thresholds_hard_witness :
    (∃ ctx' vinst,
      create_validator envRejects ctxA "df1" (some "v2") none none []
          [("warn", "x")] [("final", "y")] none none none
        = ([.printMsg ("Could not create pb.Actions from actions_dict: " ++ "bad actions" ++
              ". Passing None."),
            .printMsg ("Could not create pb.FinalActions from final_actions_dict: " ++
              "bad final actions" ++ ". Passing None.")],
          .ok ({ validator_id := orDefault (some "v2") ("validator_" ++ envRejects.freshHex) },
            ctx'))
      ∧ dictGet ctx'.active_validators (orDefault (some "v2") ("validator_" ++ envRejects.freshHex))
          = some vinst
      ∧ vinst.actions = none ∧ vinst.final_actions = none)
    ∧ (∃ ctx' vinst,
      create_validator envRejects ctxA "df1" (some "v2") none none []
          [("warn", "x")] [] none none none
        = ([.printMsg ("Could not create pb.Actions from actions_dict: " ++ "bad actions" ++
              ". Passing None.")],
          .ok ({ validator_id := orDefault (some "v2") ("validator_" ++ envRejects.freshHex) },
            ctx'))
      ∧ dictGet ctx'.active_validators (orDefault (some "v2") ("validator_" ++ envRejects.freshHex))
          = some vinst
      ∧ vinst.actions = none ∧ vinst.final_actions = none)
    ∧ (∃ ctx' vinst,
      create_validator envRejects ctxA "df1" (some "v2") none none []
          [] [("final", "y")] none none none
        = ([.printMsg ("Could not create pb.FinalActions from final_actions_dict: " ++
              "bad final actions" ++ ". Passing None.")],
          .ok ({ validator_id := orDefault (some "v2") ("validator_" ++ envRejects.freshHex) },
            ctx'))
      ∧ dictGet ctx'.active_validators (orDefault (some "v2") ("validator_" ++ envRejects.freshHex))
          = some vinst
      ∧ vinst.actions = none ∧ vinst.final_actions = none)
    ∧ create_validator envRejects ctxA "df1" (some "v2") none none [("warning", "0.1")] [] []
        none none none
      = ([], .error (.valueError ("Error creating pb.Thresholds from thresholds_dict: " ++
          "bad thresholds"), ctxA)) :=
  ⟨C10_malformed_actions_soft_thresholds_hard.1 envRejects ctxA "df1" (some "v2") none none
      [("warn", "x")] [("final", "y")] none none none dfA "bad actions" "bad final actions"
      rfl rfl (by decide) rfl (by decide) rfl,
   C10_malformed_actions_soft_thresholds_hard.2.1 envRejects ctxA "df1" (some "v2") none none
      [("warn", "x")] none none none dfA "bad actions" rfl rfl (by decide) rfl,
   C10_malformed_actions_soft_thresholds_hard.2.2.1 envRejects ctxA "df1" (some "v2") none none
      [("final", "y")] none none none dfA "bad final actions" rfl rfl (by decide) rfl,
   C10_malformed_actions_soft_thresholds_hard.2.2.2 envRejects ctxA "df1" (some "v2") none none
      [("warning", "0.1")] none none none dfA "bad thresholds" rfl rfl (by decide) rfl⟩

end PointblankMCP
